import Mathlib

/-!
Shallow embedding of `commands/util.go` of the pick secret store:
the command runner (`runCommand`, `runMovedCommand`, `handleError`),
the safe loader (`newSafeLoader`, `RememberPassword`, `Load`,
`LoadWithBackendClient`) and initialization (`readMasterPassConfirmed`,
`initSafe`).

External collaborators (backend client, crypto client, the interactive
password prompt, `safe.Load`, `safe.Init`) are modelled as an explicit
environment supplying the outcome of each call; the recursive retry of
`LoadWithBackendClient` makes at most one `SetWritable` call, one prompt
and one `safe.Load` attempt per invocation, so the environment's oracles
are indexed by the invocation number `k`.
-/

/-- Equality of `Except` values is decidable when it is on both sides. -/
instance {ε α : Type _} [DecidableEq ε] [DecidableEq α] :
    DecidableEq (Except ε α) := fun a b => by
  cases a <;> cases b
  case error.error e1 e2 => exact decidable_of_iff (e1 = e2) (by simp)
  case error.ok => exact isFalse (by simp)
  case ok.error => exact isFalse (by simp)
  case ok.ok a1 a2 => exact decidable_of_iff (a1 = a2) (by simp)

namespace Pick

/-- A Go byte slice, as used for passwords and payloads. -/
abbrev Bytes := List Nat

/-- An abstract handle to a loaded `safe.Safe` value. -/
abbrev GoSafe := Nat

/-- Go `error` values as seen by `commands/util.go`: the two sentinel
errors it compares against (`errors.ErrInvalidCommandUsage`,
`errors.ErrAlreadyRunning`), the backend's distinguished not-initialized
condition and the crypto authentication failure named by the spec, and
arbitrary other errors carrying a message (`builtinerrors.New`, IO
errors, and so on — Go's `error` type is open). -/
inductive GoErr where
  | errInvalidCommandUsage
  | errAlreadyRunning
  | notInitialized
  | authenticationFailed
  | goMsg (s : String)
  deriving DecidableEq, Repr

/-- The `safeLoader` struct of `util.go`: cached password slot, retry
budget `maxLoadTries` and consumed counter `loadTries`. -/
structure SafeLoader where
  writable : Bool
  password : Option Bytes
  maxLoadTries : Nat
  loadTries : Nat
  deriving DecidableEq, Repr

/-- `newSafeLoader`: fresh loader with budget 0, no cached password. -/
def newSafeLoader (writable : Bool) : SafeLoader :=
  { writable := writable, password := none, maxLoadTries := 0, loadTries := 0 }

/-- `RememberPassword`: increments the retry budget `maxLoadTries`. -/
def rememberPassword (sl : SafeLoader) : SafeLoader :=
  { sl with maxLoadTries := sl.maxLoadTries + 1 }

/-- Outcomes of the external calls made by `LoadWithBackendClient`,
indexed by the invocation number `k` (each recursive invocation performs
at most one call to each collaborator). -/
structure Env where
  setWritable : Nat → Bool → Option GoErr
  getPasswordInput : Nat → Except GoErr Bytes
  newCryptoClient : Nat → Option GoErr
  safeLoad : Nat → Bytes → Except GoErr GoSafe

/-- Result of a `LoadWithBackendClient` run: the returned value or
error, the final loader state, and counts of password prompts,
`safe.Load` attempts and `SetWritable` (lock) requests performed. -/
structure LWBCOut where
  result : Except GoErr GoSafe
  sl : SafeLoader
  prompts : Nat
  loadAttempts : Nat
  lockRequests : Nat
  deriving Repr

/-- `LoadWithBackendClient`, line by line: call `SetWritable` and abort
only when the result is the sentinel `ErrAlreadyRunning` (any other
`SetWritable` error is discarded by the Go code); prompt when no
password is cached and cache the input; construct the crypto client;
call `safe.Load`; on any `safe.Load` error, while `maxLoadTries >
loadTries`, clear the cached password, increment `loadTries` and recurse,
otherwise return the error. -/
def loadWithBackendClient (env : Env) (k : Nat) (sl : SafeLoader) : LWBCOut :=
  if env.setWritable k sl.writable = some GoErr.errAlreadyRunning then
    { result := .error GoErr.errAlreadyRunning, sl := sl,
      prompts := 0, loadAttempts := 0, lockRequests := 1 }
  else
    match sl.password with
    | none =>
      match env.getPasswordInput k with
      | .error e =>
        { result := .error e, sl := sl,
          prompts := 1, loadAttempts := 0, lockRequests := 1 }
      | .ok password =>
        let sl1 : SafeLoader := { sl with password := some password }
        match env.newCryptoClient k with
        | some e =>
          { result := .error e, sl := sl1,
            prompts := 1, loadAttempts := 0, lockRequests := 1 }
        | none =>
          match env.safeLoad k password with
          | .ok s =>
            { result := .ok s, sl := sl1,
              prompts := 1, loadAttempts := 1, lockRequests := 1 }
          | .error e =>
            if h : sl1.maxLoadTries > sl1.loadTries then
              let sl2 : SafeLoader :=
                { sl1 with password := none, loadTries := sl1.loadTries + 1 }
              let out := loadWithBackendClient env (k + 1) sl2
              { result := out.result, sl := out.sl,
                prompts := 1 + out.prompts,
                loadAttempts := 1 + out.loadAttempts,
                lockRequests := 1 + out.lockRequests }
            else
              { result := .error e, sl := sl1,
                prompts := 1, loadAttempts := 1, lockRequests := 1 }
    | some password =>
      match env.newCryptoClient k with
      | some e =>
        { result := .error e, sl := sl,
          prompts := 0, loadAttempts := 0, lockRequests := 1 }
      | none =>
        match env.safeLoad k password with
        | .ok s =>
          { result := .ok s, sl := sl,
            prompts := 0, loadAttempts := 1, lockRequests := 1 }
        | .error e =>
          if h : sl.maxLoadTries > sl.loadTries then
            let sl2 : SafeLoader :=
              { sl with password := none, loadTries := sl.loadTries + 1 }
            let out := loadWithBackendClient env (k + 1) sl2
            { result := out.result, sl := out.sl,
              prompts := out.prompts,
              loadAttempts := 1 + out.loadAttempts,
              lockRequests := 1 + out.lockRequests }
          else
            { result := .error e, sl := sl,
              prompts := 0, loadAttempts := 1, lockRequests := 1 }
  termination_by sl.maxLoadTries - sl.loadTries
  decreasing_by
    · simp only [SafeLoader.mk.injEq] at *
      omega
    · omega

/-- Environment for `safeLoader.Load`: the outcome of `newBackendClient`
and of the initial `backendClient.Load()` existence probe, on top of the
unlock-sequence environment. -/
structure LoadEnv extends Env where
  newBackendClient : Option GoErr
  backendLoad : Except GoErr Bytes

/-- The message `Load` substitutes for any `backendClient.Load()` error. -/
def notInitializedMsg : GoErr :=
  GoErr.goMsg "pick not yet initialized. Please run the init command first"

/-- `safeLoader.Load`: build the backend client (propagating its error);
probe the backend with `Load()` and, if that returns any error, surface
the fixed not-initialized message; otherwise delegate to
`LoadWithBackendClient`. -/
def safeLoaderLoad (lenv : LoadEnv) (sl : SafeLoader) : LWBCOut :=
  match lenv.newBackendClient with
  | some e =>
    { result := .error e, sl := sl,
      prompts := 0, loadAttempts := 0, lockRequests := 0 }
  | none =>
    match lenv.backendLoad with
    | .error _ =>
      { result := .error notInitializedMsg, sl := sl,
        prompts := 0, loadAttempts := 0, lockRequests := 0 }
    | .ok _ => loadWithBackendClient lenv.toEnv 0 sl

/-- The mismatch error of `readMasterPassConfirmed`. -/
def mismatchMsg : GoErr := GoErr.goMsg "Master passwords do not match"

/-- Result of `readMasterPassConfirmed`: returned password or error, the
number of prompt invocations, and the prompt messages in order. -/
structure RMPCOut where
  result : Except GoErr Bytes
  prompts : Nat
  messages : List String
  deriving Repr

/-- First prompt message of `readMasterPassConfirmed` (`n` adds "new "). -/
def setMsg (n : Bool) : String :=
  "Please set a " ++ (if n then "new " else "")
    ++ "master password. This is the only password you need to remember"

/-- Second prompt message of `readMasterPassConfirmed`. -/
def confirmMsg (n : Bool) : String :=
  "Please confirm your " ++ (if n then "new " else "") ++ "master password"

/-- `readMasterPassConfirmed`: prompt for a password, prompt again to
confirm, fail with the mismatch error unless the two inputs are equal
byte for byte (`bytes.Equal`). `p1` and `p2` are the outcomes of the two
prompt invocations. -/
def readMasterPassConfirmed (n : Bool) (p1 p2 : Except GoErr Bytes) : RMPCOut :=
  match p1 with
  | .error e => { result := .error e, prompts := 1, messages := [setMsg n] }
  | .ok password =>
    match p2 with
    | .error e =>
      { result := .error e, prompts := 2, messages := [setMsg n, confirmMsg n] }
    | .ok passwordConfirm =>
      if password = passwordConfirm then
        { result := .ok password, prompts := 2,
          messages := [setMsg n, confirmMsg n] }
      else
        { result := .error mismatchMsg, prompts := 2,
          messages := [setMsg n, confirmMsg n] }

/-- The error returned by `initSafe` when the backend already has data. -/
def alreadyInitializedMsg : GoErr := GoErr.goMsg "pick was already initialized"

/-- Environment for `initSafe`: outcomes of its external calls, in call
order. `safeInit` is the outcome of `s.Init()`; the safe package is not
part of this file, so its write behaviour is modelled from the spec:
`Init` serializes an empty collection, encrypts it and writes it via
`backend.Save`, and a failed save leaves the prior persisted state
intact — hence one completed backend write exactly when `s.Init()`
succeeds. -/
structure InitEnv where
  newBackendClient : Option GoErr
  backendLoad : Except GoErr Bytes
  setWritable : Option GoErr
  prompt1 : Except GoErr Bytes
  prompt2 : Except GoErr Bytes
  newCryptoClient : Option GoErr
  safeLoadRes : Bytes → Except GoErr GoSafe
  safeInit : Option GoErr

/-- Result of `initSafe`: `none` on success, and the number of completed
backend writes and password prompts performed. -/
structure InitOut where
  result : Option GoErr
  writes : Nat
  prompts : Nat
  deriving Repr

/-- `initSafe`, line by line: build the backend client; if
`backendClient.Load()` succeeds, fail with the already-initialized
error; call `SetWritable true` and abort only on the sentinel
`ErrAlreadyRunning` (other `SetWritable` errors are discarded); read a
confirmed master password; build the crypto client; `safe.Load`; then
`s.Init()`. Every error after the prompt is propagated. -/
def initSafe (env : InitEnv) : InitOut :=
  match env.newBackendClient with
  | some e => { result := some e, writes := 0, prompts := 0 }
  | none =>
    match env.backendLoad with
    | .ok _ => { result := some alreadyInitializedMsg, writes := 0, prompts := 0 }
    | .error _ =>
      if env.setWritable = some GoErr.errAlreadyRunning then
        { result := some GoErr.errAlreadyRunning, writes := 0, prompts := 0 }
      else
        let r := readMasterPassConfirmed false env.prompt1 env.prompt2
        match r.result with
        | .error e => { result := some e, writes := 0, prompts := r.prompts }
        | .ok password =>
          match env.newCryptoClient with
          | some e => { result := some e, writes := 0, prompts := r.prompts }
          | none =>
            match env.safeLoadRes password with
            | .error e => { result := some e, writes := 0, prompts := r.prompts }
            | .ok _ =>
              match env.safeInit with
              | some e => { result := some e, writes := 0, prompts := r.prompts }
              | none => { result := none, writes := 1, prompts := r.prompts }

/-- A parsed flag set, as handed to a wrapped command function. -/
abbrev FlagSet := List (String × String)

/-- `handleError`: prints the error and returns exit code 1; modelled as
returning the printed error together with the code. -/
def handleError (e : GoErr) : GoErr × Nat := (e, 1)

/-- Observable outcome of `runCommand` / `runMovedCommand`: the process
exit code, whether the usage text was printed, which error message (if
any) was printed, and the deprecation note (if any) printed first. -/
structure RunOutput where
  exitCode : Nat
  usagePrinted : Bool
  errorPrinted : Option GoErr
  movedNote : Option String
  deriving DecidableEq, Repr

/-- `runCommand`: run the wrapped command; on `ErrInvalidCommandUsage`
print the usage text and exit 1; on any other error print it via
`handleError` and exit with its code; on success exit 0. -/
def runCommand (c : List String → FlagSet → Option GoErr)
    (args : List String) (flags : FlagSet) : RunOutput :=
  match c args flags with
  | some e =>
    if e = GoErr.errInvalidCommandUsage then
      { exitCode := 1, usagePrinted := true, errorPrinted := none,
        movedNote := none }
    else
      { exitCode := (handleError e).2, usagePrinted := false,
        errorPrinted := some (handleError e).1, movedNote := none }
  | none =>
    { exitCode := 0, usagePrinted := false, errorPrinted := none,
      movedNote := none }

/-- The deprecation note printed by `runMovedCommand` for new location
`nl` (Go formats it with the `%q` verb, quoting the location). -/
def movedNoteText (nl : String) : String :=
  "NOTE: This command has moved to \"" ++ nl
    ++ "\" and will be removed soon.\n\n"

/-- `runMovedCommand`: print the deprecation note naming the new command
location, then behave exactly as `runCommand`. -/
def runMovedCommand (c : List String → FlagSet → Option GoErr)
    (args : List String) (flags : FlagSet) (nl : String) : RunOutput :=
  { runCommand c args flags with movedNote := some (movedNoteText nl) }

/-! ## Helper lemmas -/

/-- Unlock run in which every `safe.Load` attempt fails with
`AuthenticationFailed`, every prompt succeeds, crypto construction
succeeds and the lock is never contended: starting with no cached
password, the run prompts once per remaining attempt
(`maxLoadTries - loadTries + 1` times) and surfaces
`AuthenticationFailed`. -/
lemma lwbc_all_fail (env : Env) (pws : Nat → Bytes)
    (hsw : ∀ j b, env.setWritable j b ≠ some GoErr.errAlreadyRunning)
    (hp : ∀ j, env.getPasswordInput j = .ok (pws j))
    (hc : ∀ j, env.newCryptoClient j = none)
    (hl : ∀ j pw, env.safeLoad j pw = .error GoErr.authenticationFailed) :
    ∀ k sl, sl.password = none →
      (loadWithBackendClient env k sl).prompts
          = sl.maxLoadTries - sl.loadTries + 1 ∧
        (loadWithBackendClient env k sl).result
          = .error GoErr.authenticationFailed := by
  intro k sl hpw
  induction' hd : sl.maxLoadTries - sl.loadTries with n ih generalizing k sl
  case zero =>
    obtain ⟨w, pw, mx, lt⟩ := sl
    simp only at hpw hd
    subst hpw
    unfold loadWithBackendClient
    rw [if_neg (hsw k w)]
    simp only [hp k, hc k, hl k]
    rw [dif_neg (by omega)]
    simp [hd]
  case succ =>
    obtain ⟨w, pw, mx, lt⟩ := sl
    simp only at hpw hd
    subst hpw
    unfold loadWithBackendClient
    rw [if_neg (hsw k w)]
    simp only [hp k, hc k, hl k]
    rw [dif_pos (by omega)]
    have hrec := ih (k + 1)
      { writable := w, password := none, maxLoadTries := mx, loadTries := lt + 1 }
      rfl (by simp only; omega)
    simp only at hrec ⊢
    rw [hrec.1, hrec.2]
    constructor
    · omega
    · rfl

/-- Calling `RememberPassword` `N` times on a fresh loader yields budget
`maxLoadTries = N`, no cached password, `loadTries = 0`. -/
lemma rememberPassword_iterate (N : Nat) (w : Bool) :
    rememberPassword^[N] (newSafeLoader w)
      = { writable := w, password := none, maxLoadTries := N, loadTries := 0 } := by
  induction N with
  | zero => rfl
  | succ n ih =>
    rw [Function.iterate_succ_apply', ih]
    rfl

/-- Environment in which every collaborator succeeds except `safe.Load`,
which always reports `AuthenticationFailed` (a wrong password at every
attempt). -/
def allFailEnv : Env :=
  { setWritable := fun _ _ => none,
    getPasswordInput := fun k => .ok [k],
    newCryptoClient := fun _ => none,
    safeLoad := fun _ _ => .error GoErr.authenticationFailed }

/-- In every environment, a `LoadWithBackendClient` run performs at most
`maxLoadTries - loadTries + 1` calls to `safe.Load`. -/
lemma lwbc_loadAttempts_le (env : Env) :
    ∀ k sl, (loadWithBackendClient env k sl).loadAttempts
      ≤ sl.maxLoadTries - sl.loadTries + 1 := by
  intro k sl
  induction' hd : sl.maxLoadTries - sl.loadTries using Nat.strong_induction_on
    with d ih generalizing k sl
  obtain ⟨w, pw, mx, lt⟩ := sl
  simp only at hd
  subst hd
  unfold loadWithBackendClient
  dsimp only
  split
  · simp
  · rcases pw with _ | pw
    · rcases hgp : env.getPasswordInput k with e | pw1
      · simp [hgp]
      · simp only [hgp]
        rcases hcc : env.newCryptoClient k with _ | e
        · simp only [hcc]
          rcases hld : env.safeLoad k pw1 with e | s
          · simp only [hld]
            split
            case isTrue h =>
              have := ih (mx - (lt + 1)) (by omega) (k + 1)
                { writable := w, password := none, maxLoadTries := mx,
                  loadTries := lt + 1 } rfl
              simp only at this ⊢
              omega
            case isFalse h => simp
          · simp [hld]
        · simp [hcc]
    · rcases hcc : env.newCryptoClient k with _ | e
      · simp only [hcc]
        rcases hld : env.safeLoad k pw with e | s
        · simp only [hld]
          split
          case isTrue h =>
            have := ih (mx - (lt + 1)) (by omega) (k + 1)
              { writable := w, password := none, maxLoadTries := mx,
                loadTries := lt + 1 } rfl
            simp only at this ⊢
            omega
          case isFalse h => simp
        · simp [hld]
      · simp [hcc]

/-- In every environment, a `LoadWithBackendClient` run leaves the
budget `maxLoadTries` unchanged and leaves `loadTries` at most
`max loadTries maxLoadTries` of the starting state (it is incremented
only under the guard `maxLoadTries > loadTries`). -/
lemma lwbc_sl_bounds (env : Env) :
    ∀ k sl, (loadWithBackendClient env k sl).sl.maxLoadTries = sl.maxLoadTries ∧
      (loadWithBackendClient env k sl).sl.loadTries
        ≤ max sl.loadTries sl.maxLoadTries := by
  intro k sl
  induction' hd : sl.maxLoadTries - sl.loadTries using Nat.strong_induction_on
    with d ih generalizing k sl
  obtain ⟨w, pw, mx, lt⟩ := sl
  simp only at hd
  subst hd
  unfold loadWithBackendClient
  dsimp only
  split
  · simp
  · rcases pw with _ | pw
    · rcases hgp : env.getPasswordInput k with e | pw1
      · simp [hgp]
      · simp only [hgp]
        rcases hcc : env.newCryptoClient k with _ | e
        · simp only [hcc]
          rcases hld : env.safeLoad k pw1 with e | s
          · simp only [hld]
            split
            case isTrue h =>
              have := ih (mx - (lt + 1)) (by omega) (k + 1)
                { writable := w, password := none, maxLoadTries := mx,
                  loadTries := lt + 1 } rfl
              simp only at this ⊢
              omega
            case isFalse h => simp
          · simp [hld]
        · simp [hcc]
    · rcases hcc : env.newCryptoClient k with _ | e
      · simp only [hcc]
        rcases hld : env.safeLoad k pw with e | s
        · simp only [hld]
          split
          case isTrue h =>
            have := ih (mx - (lt + 1)) (by omega) (k + 1)
              { writable := w, password := none, maxLoadTries := mx,
                loadTries := lt + 1 } rfl
            simp only at this ⊢
            omega
          case isFalse h => simp
        · simp [hld]
      · simp [hcc]

/-! ## Claim theorems -/

/-- C1: with retry budget `N` established by calling `RememberPassword`
`N` times on a fresh `safeLoader`, if every `safe.Load` attempt fails
with `AuthenticationFailed` (prompts, lock and crypto construction
succeeding), the loader prompts for a password exactly `N + 1` times and
surfaces `AuthenticationFailed` to the caller. -/
theorem C1_retry_bound (N : Nat) (w : Bool) (env : Env) (pws : Nat → Bytes)
    (hsw : ∀ j b, env.setWritable j b ≠ some GoErr.errAlreadyRunning)
    (hp : ∀ j, env.getPasswordInput j = .ok (pws j))
    (hc : ∀ j, env.newCryptoClient j = none)
    (hl : ∀ j pw, env.safeLoad j pw = .error GoErr.authenticationFailed) :
    (loadWithBackendClient env 0 (rememberPassword^[N] (newSafeLoader w))).prompts
        = N + 1 ∧
      (loadWithBackendClient env 0 (rememberPassword^[N] (newSafeLoader w))).result
        = .error GoErr.authenticationFailed := by
  rw [rememberPassword_iterate]
  simpa using lwbc_all_fail env pws hsw hp hc hl 0
    { writable := w, password := none, maxLoadTries := N, loadTries := 0 } rfl

/-- Witness for C1 at budget `N = 2` in the always-wrong-password
environment: 3 prompts, `AuthenticationFailed` surfaced. -/
theorem C1_retry_bound_witness :
    (loadWithBackendClient allFailEnv 0
        (rememberPassword^[2] (newSafeLoader true))).prompts = 2 + 1 ∧
      (loadWithBackendClient allFailEnv 0
        (rememberPassword^[2] (newSafeLoader true))).result
        = .error GoErr.authenticationFailed :=
  C1_retry_bound 2 true allFailEnv (fun k => [k])
    (by intro j b; simp [allFailEnv])
    (fun _ => rfl) (fun _ => rfl) (fun _ _ => rfl)

/-- C6: `runCommand` exits 0 when the wrapped command returns no error;
on `ErrInvalidCommandUsage` it prints the usage text and exits 1 without
printing the error message; on any other error it prints the error
message and exits 1 (without printing usage). -/
theorem C6_exit_contract (c : List String → FlagSet → Option GoErr)
    (args : List String) (flags : FlagSet) :
    (c args flags = none →
        runCommand c args flags
          = { exitCode := 0, usagePrinted := false, errorPrinted := none,
              movedNote := none }) ∧
      (c args flags = some GoErr.errInvalidCommandUsage →
        runCommand c args flags
          = { exitCode := 1, usagePrinted := true, errorPrinted := none,
              movedNote := none }) ∧
      (∀ e, e ≠ GoErr.errInvalidCommandUsage → c args flags = some e →
        runCommand c args flags
          = { exitCode := 1, usagePrinted := false, errorPrinted := some e,
              movedNote := none }) := by
  refine ⟨fun h => ?_, fun h => ?_, fun e he h => ?_⟩
  · simp [runCommand, h]
  · simp [runCommand, h]
  · simp [runCommand, h, if_neg he, handleError]

/-- Witness for C6 on the error `goMsg "boom"`, which is not the usage
sentinel. -/
theorem C6_exit_contract_witness :
    runCommand (fun _ _ => some (GoErr.goMsg "boom")) [] []
      = { exitCode := 1, usagePrinted := false,
          errorPrinted := some (GoErr.goMsg "boom"), movedNote := none } :=
  (C6_exit_contract (fun _ _ => some (GoErr.goMsg "boom")) [] []).2.2
    (GoErr.goMsg "boom") (by decide) rfl

/-- C7: `readMasterPassConfirmed` invokes the password prompt exactly
twice (entry message, then confirmation message, in that order) when
both inputs are supplied, returns the entered password exactly when the
two inputs are equal byte for byte, and fails with the mismatch error,
returning no password, otherwise. -/
theorem C7_confirmed_password (n : Bool) (a b : Bytes) :
    (readMasterPassConfirmed n (.ok a) (.ok b)).prompts = 2 ∧
      (readMasterPassConfirmed n (.ok a) (.ok b)).messages
        = [setMsg n, confirmMsg n] ∧
      (readMasterPassConfirmed n (.ok a) (.ok b)).result
        = (if a = b then .ok a else .error mismatchMsg) := by
  by_cases h : a = b
  · simp [readMasterPassConfirmed, h]
  · simp [readMasterPassConfirmed, h]

/-- C10: for every wrapped command, arguments and flag set,
`runMovedCommand` produces the same exit code, usage printing and error
printing as `runCommand`; the two differ only in that `runMovedCommand`
first prints the deprecation note naming the new command location, which
`runCommand` never prints. -/
theorem C10_moved_command_refinement
    (c : List String → FlagSet → Option GoErr)
    (args : List String) (flags : FlagSet) (nl : String) :
    (runMovedCommand c args flags nl).exitCode
        = (runCommand c args flags).exitCode ∧
      (runMovedCommand c args flags nl).usagePrinted
        = (runCommand c args flags).usagePrinted ∧
      (runMovedCommand c args flags nl).errorPrinted
        = (runCommand c args flags).errorPrinted ∧
      (runMovedCommand c args flags nl).movedNote = some (movedNoteText nl) ∧
      (runCommand c args flags).movedNote = none := by
  refine ⟨rfl, rfl, rfl, rfl, ?_⟩
  unfold runCommand
  cases c args flags with
  | none => rfl
  | some e =>
    by_cases h : e = GoErr.errInvalidCommandUsage
    · simp [h]
    · simp [h]

/-- C8: for every environment (sequence of load outcomes) and every
starting loader state, the recursion of `LoadWithBackendClient`
terminates — `loadWithBackendClient` is defined by well-founded
recursion on the strictly decreasing measure `maxLoadTries - loadTries`
— and performs at most `maxLoadTries - loadTries + 1` calls to
`safe.Load`, hence at most `maxLoadTries + 1` in total. -/
theorem C8_termination_attempt_bound (env : Env) (k : Nat) (sl : SafeLoader) :
    (loadWithBackendClient env k sl).loadAttempts
        ≤ sl.maxLoadTries - sl.loadTries + 1 ∧
      (loadWithBackendClient env k sl).loadAttempts ≤ sl.maxLoadTries + 1 := by
  have h := lwbc_loadAttempts_le env k sl
  exact ⟨h, le_trans h (by omega)⟩

/-- C9: `loadTries ≤ maxLoadTries` is an invariant of the `safeLoader`
state: it holds for a loader created by `newSafeLoader`, it is preserved
by `RememberPassword`, and it is preserved by every run of
`LoadWithBackendClient` (whose final state is observable through the
run's output). -/
theorem C9_loadTries_invariant :
    (∀ w, (newSafeLoader w).loadTries ≤ (newSafeLoader w).maxLoadTries) ∧
      (∀ sl : SafeLoader, sl.loadTries ≤ sl.maxLoadTries →
        (rememberPassword sl).loadTries ≤ (rememberPassword sl).maxLoadTries) ∧
      (∀ (env : Env) (k : Nat) (sl : SafeLoader),
        sl.loadTries ≤ sl.maxLoadTries →
        (loadWithBackendClient env k sl).sl.loadTries
          ≤ (loadWithBackendClient env k sl).sl.maxLoadTries) := by
  refine ⟨fun w => le_refl 0, fun sl h => ?_, fun env k sl h => ?_⟩
  · simp only [rememberPassword]
    omega
  · have hb := lwbc_sl_bounds env k sl
    omega

/-- Witness for C9: the invariant is preserved by a concrete
`LoadWithBackendClient` run from the state with budget 2, one retry
already consumed, in the always-wrong-password environment. -/
theorem C9_loadTries_invariant_witness :
    (loadWithBackendClient allFailEnv 0
        { writable := true, password := none, maxLoadTries := 2,
          loadTries := 1 }).sl.loadTries
      ≤ (loadWithBackendClient allFailEnv 0
        { writable := true, password := none, maxLoadTries := 2,
          loadTries := 1 }).sl.maxLoadTries :=
  C9_loadTries_invariant.2.2 allFailEnv 0
    { writable := true, password := none, maxLoadTries := 2, loadTries := 1 }
    (by decide)

/-- Environment in which every collaborator succeeds except `safe.Load`,
which always fails with an IO-style error that is not
`AuthenticationFailed`. -/
def ioFailEnv : Env :=
  { setWritable := fun _ _ => none,
    getPasswordInput := fun k => .ok [k],
    newCryptoClient := fun _ => none,
    safeLoad := fun _ _ => .error (GoErr.goMsg "io failure") }

/-- C2 counterexample: with retry budget 1, a `safe.Load` error that is
not `AuthenticationFailed` does not propagate unchanged without a retry:
the loader re-prompts (2 prompts in total) and consumes a retry
(`loadTries` ends at 1), because the code retries on every `safe.Load`
error, not only on `AuthenticationFailed`. -/
theorem C2_counterexample :
    ioFailEnv.safeLoad 0 [0] = .error (GoErr.goMsg "io failure") ∧
      GoErr.goMsg "io failure" ≠ GoErr.authenticationFailed ∧
      (loadWithBackendClient ioFailEnv 0
        { writable := true, password := none, maxLoadTries := 1,
          loadTries := 0 }).prompts = 2 ∧
      (loadWithBackendClient ioFailEnv 0
        { writable := true, password := none, maxLoadTries := 1,
          loadTries := 0 }).sl.loadTries = 1 := by
  refine ⟨rfl, by decide, ?_, ?_⟩ <;> simp [loadWithBackendClient, ioFailEnv]

/-- C2 (amended): within the Safe Loader, every error returned by
`safe.Load` — not only `AuthenticationFailed` — triggers the cycle that
discards the cached password, increments `loadTries` and retries, as
long as `maxLoadTries > loadTries`; once the budget is exhausted the
`safe.Load` error propagates unchanged without a further retry or
re-prompt. -/
theorem C2_any_safeLoad_error_retried (env : Env) (k : Nat)
    (sl : SafeLoader) (pw : Bytes) (e : GoErr)
    (hsw : env.setWritable k sl.writable ≠ some GoErr.errAlreadyRunning)
    (hpw : sl.password = some pw)
    (hcc : env.newCryptoClient k = none)
    (hld : env.safeLoad k pw = .error e) :
    (sl.maxLoadTries > sl.loadTries →
        loadWithBackendClient env k sl
          = { result := (loadWithBackendClient env (k + 1)
                { writable := sl.writable, password := none,
                  maxLoadTries := sl.maxLoadTries,
                  loadTries := sl.loadTries + 1 }).result,
              sl := (loadWithBackendClient env (k + 1)
                { writable := sl.writable, password := none,
                  maxLoadTries := sl.maxLoadTries,
                  loadTries := sl.loadTries + 1 }).sl,
              prompts := (loadWithBackendClient env (k + 1)
                { writable := sl.writable, password := none,
                  maxLoadTries := sl.maxLoadTries,
                  loadTries := sl.loadTries + 1 }).prompts,
              loadAttempts := 1 + (loadWithBackendClient env (k + 1)
                { writable := sl.writable, password := none,
                  maxLoadTries := sl.maxLoadTries,
                  loadTries := sl.loadTries + 1 }).loadAttempts,
              lockRequests := 1 + (loadWithBackendClient env (k + 1)
                { writable := sl.writable, password := none,
                  maxLoadTries := sl.maxLoadTries,
                  loadTries := sl.loadTries + 1 }).lockRequests }) ∧
      (sl.maxLoadTries ≤ sl.loadTries →
        loadWithBackendClient env k sl
          = { result := .error e, sl := sl, prompts := 0,
              loadAttempts := 1, lockRequests := 1 }) := by
  obtain ⟨w, pw0, mx, lt⟩ := sl
  simp only at hpw hsw
  subst hpw
  constructor
  all_goals intro h
  all_goals conv_lhs => rw [loadWithBackendClient]
  all_goals rw [if_neg hsw]
  all_goals dsimp only
  all_goals simp only [hcc, hld]
  · rw [dif_pos h]
  · rw [dif_neg (Nat.not_lt.mpr h)]

/-- Witness for the amended C2 at an exhausted budget: the IO-style
`safe.Load` error propagates unchanged. -/
theorem C2_any_safeLoad_error_retried_witness :
    loadWithBackendClient ioFailEnv 0
        { writable := true, password := some [5], maxLoadTries := 1,
          loadTries := 1 }
      = { result := .error (GoErr.goMsg "io failure"),
          sl := { writable := true, password := some [5], maxLoadTries := 1,
                  loadTries := 1 },
          prompts := 0, loadAttempts := 1, lockRequests := 1 } :=
  (C2_any_safeLoad_error_retried ioFailEnv 0
      { writable := true, password := some [5], maxLoadTries := 1,
        loadTries := 1 } [5] (GoErr.goMsg "io failure")
      (by decide) rfl rfl rfl).2 (by decide)

/-- Load environment whose backend probe fails with a disk error that is
not the `NotInitialized` condition, while every later collaborator would
succeed. -/
def diskFailLoadEnv : LoadEnv :=
  { setWritable := fun _ _ => none,
    getPasswordInput := fun k => .ok [k],
    newCryptoClient := fun _ => none,
    safeLoad := fun _ _ => .ok 0,
    newBackendClient := none,
    backendLoad := .error (GoErr.goMsg "disk read failed") }

/-- C4 counterexample: when `backendClient.Load()` fails with a disk
error that is not the `NotInitialized` condition, `safeLoader.Load`
still surfaces the not-initialized message — so the message is not
surfaced exactly when the backend reports `NotInitialized`. -/
theorem C4_counterexample :
    diskFailLoadEnv.backendLoad ≠ .error GoErr.notInitialized ∧
      (safeLoaderLoad diskFailLoadEnv (newSafeLoader false)).result
        = .error notInitializedMsg := by
  exact ⟨by decide, rfl⟩

/-- C4 (amended): `safeLoader.Load` surfaces the not-initialized error
whenever `backendClient.Load()` returns any error — the `NotInitialized`
condition or any other failure — and in that case performs no lock
request, no password prompt and no `safe.Load` attempt; when the probe
succeeds it delegates to the unlock sequence unchanged. -/
theorem C4_not_initialized_gate (lenv : LoadEnv) (sl : SafeLoader)
    (hbc : lenv.newBackendClient = none) :
    (∀ e, lenv.backendLoad = .error e →
        safeLoaderLoad lenv sl
          = { result := .error notInitializedMsg, sl := sl, prompts := 0,
              loadAttempts := 0, lockRequests := 0 }) ∧
      (∀ b, lenv.backendLoad = .ok b →
        safeLoaderLoad lenv sl = loadWithBackendClient lenv.toEnv 0 sl) := by
  constructor <;> intro x hx <;> simp [safeLoaderLoad, hbc, hx]

/-- Witness for the amended C4 at a concrete disk failure: the
not-initialized message is surfaced with no lock request, prompt or
load attempt. -/
theorem C4_not_initialized_gate_witness :
    safeLoaderLoad diskFailLoadEnv (newSafeLoader false)
      = { result := .error notInitializedMsg, sl := newSafeLoader false,
          prompts := 0, loadAttempts := 0, lockRequests := 0 } :=
  (C4_not_initialized_gate diskFailLoadEnv (newSafeLoader false) rfl).1
    (GoErr.goMsg "disk read failed") rfl

/-- Init environment whose backend probe fails with a disk error that is
not the `NotInitialized` condition, while every later collaborator
succeeds. -/
def diskFailInitEnv : InitEnv :=
  { newBackendClient := none,
    backendLoad := .error (GoErr.goMsg "disk read failed"),
    setWritable := none,
    prompt1 := .ok [1],
    prompt2 := .ok [1],
    newCryptoClient := none,
    safeLoadRes := fun _ => .ok 0,
    safeInit := none }

/-- C3 counterexample: when `backendClient.Load()` returns a disk error
(so it does not report `NotInitialized`), `initSafe` does not fail with
the already-initialized error — it proceeds, succeeds and performs a
backend write. -/
theorem C3_counterexample :
    diskFailInitEnv.backendLoad ≠ .error GoErr.notInitialized ∧
      (initSafe diskFailInitEnv).result ≠ some alreadyInitializedMsg ∧
      (initSafe diskFailInitEnv).result = none ∧
      (initSafe diskFailInitEnv).writes = 1 := by
  exact ⟨by decide, by decide, rfl, rfl⟩

/-- C3 (amended): calling `initSafe` when the backend already reports
stored data — that is, when `backendClient.Load()` succeeds — fails with
the already-initialized error and performs zero writes to the backend. -/
theorem C3_no_double_init (env : InitEnv) (b : Bytes)
    (hbc : env.newBackendClient = none)
    (hld : env.backendLoad = .ok b) :
    (initSafe env).result = some alreadyInitializedMsg ∧
      (initSafe env).writes = 0 := by
  simp [initSafe, hbc, hld]

/-- Witness for the amended C3: a backend that reports data makes
`initSafe` fail with the already-initialized error and zero writes. -/
theorem C3_no_double_init_witness :
    (initSafe { diskFailInitEnv with backendLoad := .ok [9] }).result
        = some alreadyInitializedMsg ∧
      (initSafe { diskFailInitEnv with backendLoad := .ok [9] }).writes = 0 :=
  C3_no_double_init { diskFailInitEnv with backendLoad := .ok [9] } [9] rfl rfl

/-- As long as `SetWritable` never returns the sentinel
`ErrAlreadyRunning`, its results — including genuine errors — have no
effect whatsoever on a `LoadWithBackendClient` run: the run is identical
to one in which every `SetWritable` call succeeds. -/
lemma lwbc_setWritable_discarded (env : Env)
    (hsw : ∀ j b, env.setWritable j b ≠ some GoErr.errAlreadyRunning) :
    ∀ k sl, loadWithBackendClient env k sl
      = loadWithBackendClient
          { env with setWritable := fun _ _ => none } k sl := by
  intro k sl
  induction' hd : sl.maxLoadTries - sl.loadTries using Nat.strong_induction_on
    with d ih generalizing k sl
  obtain ⟨w, pw, mx, lt⟩ := sl
  simp only at hd
  subst hd
  conv_lhs => rw [loadWithBackendClient]
  conv_rhs => rw [loadWithBackendClient]
  rw [if_neg (hsw k w), if_neg (by simp)]
  dsimp only
  rcases pw with _ | pw
  · rcases hgp : env.getPasswordInput k with e | pw1
    · simp only [hgp]
    · simp only [hgp]
      rcases hcc : env.newCryptoClient k with _ | e
      · simp only [hcc]
        rcases hld : env.safeLoad k pw1 with e | s
        · simp only [hld]
          split
          case isTrue h =>
            rw [ih (mx - (lt + 1)) (by omega) (k + 1)
              { writable := w, password := none, maxLoadTries := mx,
                loadTries := lt + 1 } rfl]
          case isFalse h => rfl
        · simp only [hld]
      · simp only [hcc]
  · rcases hcc : env.newCryptoClient k with _ | e
    · simp only [hcc]
      rcases hld : env.safeLoad k pw with e | s
      · simp only [hld]
        split
        case isTrue h =>
          rw [ih (mx - (lt + 1)) (by omega) (k + 1)
            { writable := w, password := none, maxLoadTries := mx,
              loadTries := lt + 1 } rfl]
        case isFalse h => rfl
      · simp only [hld]
    · simp only [hcc]

/-- As long as `SetWritable` does not return the sentinel
`ErrAlreadyRunning`, its result — including a genuine error — has no
effect on `initSafe`: the run is identical to one in which `SetWritable`
succeeds. -/
lemma initSafe_setWritable_discarded (env : InitEnv)
    (hsw : env.setWritable ≠ some GoErr.errAlreadyRunning) :
    initSafe env = initSafe { env with setWritable := none } := by
  obtain ⟨nbc, bl, sw, p1, p2, ncc, slr, si⟩ := env
  simp only at hsw
  cases nbc with
  | some e0 => rfl
  | none =>
    cases bl with
    | ok b => rfl
    | error e0 =>
      simp only [initSafe]
      rw [if_neg hsw]
      simp

/-- Environment in which `SetWritable` always fails with a lockfile
error different from `ErrAlreadyRunning`, while every other collaborator
succeeds. -/
def swFailEnv : Env :=
  { setWritable := fun _ _ => some (GoErr.goMsg "lockfile create failed"),
    getPasswordInput := fun k => .ok [k],
    newCryptoClient := fun _ => none,
    safeLoad := fun _ _ => .ok 0 }

/-- C5 counterexample: `SetWritable` returns a lockfile error that is
not `ErrAlreadyRunning`, the loader discards it, and execution continues
as if `SetWritable` had succeeded — the load returns `ok`. -/
theorem C5_counterexample :
    swFailEnv.setWritable 0 true = some (GoErr.goMsg "lockfile create failed") ∧
      GoErr.goMsg "lockfile create failed" ≠ GoErr.errAlreadyRunning ∧
      (loadWithBackendClient swFailEnv 0 (newSafeLoader true)).result
        = .ok 0 := by
  refine ⟨rfl, by decide, ?_⟩
  simp [loadWithBackendClient, swFailEnv, newSafeLoader]

/-- C5 (amended): in the loader, `ErrAlreadyRunning` from `SetWritable`
aborts the run, a prompt error propagates, a crypto-construction error
propagates, and in `initSafe` `ErrAlreadyRunning` likewise aborts — but
an error returned by `SetWritable` other than `ErrAlreadyRunning` is
discarded by both the loader and `initSafe`, execution continuing
exactly as if `SetWritable` had succeeded. -/
theorem C5_error_propagation :
    (∀ (env : Env) (k : Nat) (sl : SafeLoader),
        env.setWritable k sl.writable = some GoErr.errAlreadyRunning →
        loadWithBackendClient env k sl
          = { result := .error GoErr.errAlreadyRunning, sl := sl,
              prompts := 0, loadAttempts := 0, lockRequests := 1 }) ∧
      (∀ (env : Env) (k : Nat) (sl : SafeLoader),
        (∀ j b, env.setWritable j b ≠ some GoErr.errAlreadyRunning) →
        loadWithBackendClient env k sl
          = loadWithBackendClient
              { env with setWritable := fun _ _ => none } k sl) ∧
      (∀ (env : Env) (k : Nat) (sl : SafeLoader) (e : GoErr),
        env.setWritable k sl.writable ≠ some GoErr.errAlreadyRunning →
        sl.password = none →
        env.getPasswordInput k = .error e →
        loadWithBackendClient env k sl
          = { result := .error e, sl := sl, prompts := 1,
              loadAttempts := 0, lockRequests := 1 }) ∧
      (∀ (env : Env) (k : Nat) (sl : SafeLoader) (pw1 : Bytes) (e : GoErr),
        env.setWritable k sl.writable ≠ some GoErr.errAlreadyRunning →
        sl.password = none →
        env.getPasswordInput k = .ok pw1 →
        env.newCryptoClient k = some e →
        loadWithBackendClient env k sl
          = { result := .error e, sl := { sl with password := some pw1 },
              prompts := 1, loadAttempts := 0, lockRequests := 1 }) ∧
      (∀ (env : InitEnv) (e0 : GoErr),
        env.newBackendClient = none →
        env.backendLoad = .error e0 →
        env.setWritable = some GoErr.errAlreadyRunning →
        initSafe env
          = { result := some GoErr.errAlreadyRunning, writes := 0,
              prompts := 0 }) ∧
      (∀ env : InitEnv,
        env.setWritable ≠ some GoErr.errAlreadyRunning →
        initSafe env = initSafe { env with setWritable := none }) := by
  refine ⟨fun env k sl h => ?_, fun env k sl h => lwbc_setWritable_discarded env h k sl,
    fun env k sl e h hpw hgp => ?_, fun env k sl pw1 e h hpw hgp hcc => ?_,
    fun env e0 h1 h2 h3 => ?_, fun env h => initSafe_setWritable_discarded env h⟩
  · conv_lhs => rw [loadWithBackendClient]
    rw [if_pos h]
  · obtain ⟨w, pw0, mx, lt⟩ := sl
    simp only at hpw h
    subst hpw
    conv_lhs => rw [loadWithBackendClient]
    rw [if_neg h]
    simp only [hgp]
  · obtain ⟨w, pw0, mx, lt⟩ := sl
    simp only at hpw h
    subst hpw
    conv_lhs => rw [loadWithBackendClient]
    rw [if_neg h]
    simp only [hgp, hcc]
  · simp only [initSafe, h1, h2]
    rw [if_pos h3]

/-- Witness for the amended C5: with `SetWritable` failing with a
lockfile error at every call, the run equals the run in which every
`SetWritable` call succeeds. -/
theorem C5_error_propagation_witness :
    loadWithBackendClient swFailEnv 0 (newSafeLoader true)
      = loadWithBackendClient
          { swFailEnv with setWritable := fun _ _ => none } 0
          (newSafeLoader true) :=
  C5_error_propagation.2.1 swFailEnv 0 (newSafeLoader true)
    (fun j b => by simp [swFailEnv])

end Pick
